import Mathlib

/-!
Shallow embedding of the inspection backend's two core services
(`src/services/ai_analysis.py` and `src/services/code_query_service.py`).

Python strings become `String`, Python floats become `ℚ` (all constants in
the source are decimal literals), dicts with fixed keys become structures,
`dict.get` with a default becomes `Option`-valued lookup, and functions that
can raise become `Except`/`Option`-valued or are parameterised over the
outcome of their fallible external calls (image decoding, frame capture).
-/

/-- A value of a component's `properties` dict: the source stores booleans
(`grounded`, `gfci_protected`) and strings (`type: single_pole`). -/
inductive PropVal where
  | b (x : Bool)
  | s (x : String)
deriving DecidableEq, Repr

/-- Python truthiness of a property value, as used by
`if not component['properties'].get('gfci_protected', False)`. -/
def PropVal.truthy : PropVal → Bool
  | .b x => x
  | .s x => x ≠ ""

/-- One detector output record (`Detection` in the data model). -/
structure Detection where
  type : String
  confidence : ℚ
  bbox : List ℚ
  properties : List (String × PropVal)
  id : Option String := none
deriving DecidableEq, Repr

/-- `d.get(k)` on an association list standing for a Python dict. -/
def dictGet (ps : List (String × PropVal)) (k : String) : Option PropVal :=
  (ps.find? (fun p => p.1 == k)).map (fun p => p.2)

/-- `component['properties'].get(k, False)` coerced through Python truthiness. -/
def truthyGet (ps : List (String × PropVal)) (k : String) : Bool :=
  match dictGet ps k with
  | some v => v.truthy
  | none => false

/-- One violation record produced by `check_code_violations`. -/
structure Violation where
  type : String
  severity : String
  description : String
  code_reference : Option String := none
  component_id : Option String := none
  confidence : ℚ
deriving DecidableEq, Repr

/-- The `missing_gfci` violation template of `check_code_violations`. -/
def missingGfciViolation (cid : Option String) : Violation :=
  { type := "missing_gfci"
    severity := "high"
    description := "GFCI protection may be required for this outlet location"
    code_reference := some "NEC 210.8"
    component_id := cid
    confidence := 3/4 }

/-- The `potential_overcrowding` violation template of `check_code_violations`. -/
def overcrowdingViolation (cid : Option String) : Violation :=
  { type := "potential_overcrowding"
    severity := "medium"
    description := "Junction box may be overcrowded - verify wire fill calculations"
    code_reference := some "NEC 314.16"
    component_id := cid
    confidence := 3/5 }

/-- The violations one loop iteration of `check_code_violations` appends for a
single component: the `outlet`/`junction_box` branches of the `for` body. -/
def violationsFor (c : Detection) : List Violation :=
  if c.type == "outlet" then
    if !(truthyGet c.properties "gfci_protected") then [missingGfciViolation c.id] else []
  else if c.type == "junction_box" then
    [overcrowdingViolation c.id]
  else
    []

/-- `ImageAnalysisService.check_code_violations`: the loop accumulates the
per-component violations in order. -/
def check_code_violations (components : List Detection) : List Violation :=
  components.flatMap violationsFor

/-- The `summary` dict of `calculate_overall_assessment`. -/
structure AssessmentSummary where
  components_detected : Nat
  violations_found : Nat
  high_severity : Nat
  medium_severity : Nat
deriving DecidableEq, Repr

/-- The record returned by `calculate_overall_assessment`. -/
structure Assessment where
  overall_result : String
  confidence : ℚ
  summary : AssessmentSummary
deriving DecidableEq, Repr

/-- `ImageAnalysisService.calculate_overall_assessment`.  The `try` body is
total (every `Violation` carries a `severity`), so the `except` branch that
would return an `error` assessment is unreachable and not modelled. -/
def calculate_overall_assessment (components : List Detection)
    (violations : List Violation) : Assessment :=
  let high_severity_violations := violations.filter (fun v => v.severity == "high")
  let medium_severity_violations := violations.filter (fun v => v.severity == "medium")
  let summary : AssessmentSummary :=
    { components_detected := components.length
      violations_found := violations.length
      high_severity := high_severity_violations.length
      medium_severity := medium_severity_violations.length }
  if high_severity_violations.length > 0 then
    { overall_result := "fail", confidence := 17/20, summary := summary }
  else if medium_severity_violations.length > 2 then
    { overall_result := "warning", confidence := 7/10, summary := summary }
  else
    { overall_result := "pass", confidence := 9/10, summary := summary }

/-- The fixed remediation sentence for `missing_gfci`. -/
def gfciRecommendation : String :=
  "Install GFCI protection for outlets in wet locations (bathrooms, kitchens, garages, etc.)"

/-- The fixed remediation sentence for `potential_overcrowding`. -/
def overcrowdingRecommendation : String :=
  "Verify junction box fill calculations per NEC 314.16 and consider larger box if needed"

/-- The fixed remediation sentence for `improper_grounding`. -/
def groundingRecommendation : String :=
  "Ensure proper grounding connections per NEC Article 250"

/-- The reassuring sentence appended when no violations were found. -/
def reassuranceRecommendation : String :=
  "Installation appears to meet basic code requirements. Consider professional inspection for final verification."

/-- The sentence one loop iteration of `_generate_recommendations` appends for a
single violation: the fixed lookup, or the generic f-string
`f"Address {violation['type']} - refer to {violation.get('code_reference', 'NEC')}"`. -/
def recommendationFor (v : Violation) : String :=
  if v.type == "missing_gfci" then gfciRecommendation
  else if v.type == "potential_overcrowding" then overcrowdingRecommendation
  else if v.type == "improper_grounding" then groundingRecommendation
  else "Address " ++ v.type ++ " - refer to " ++ v.code_reference.getD "NEC"

/-- `ImageAnalysisService._generate_recommendations`: one sentence per
violation, plus the reassuring sentence when the violation list is empty. -/
def generate_recommendations (violations : List Violation) : List String :=
  violations.map recommendationFor ++
    (if violations.isEmpty then [reassuranceRecommendation] else [])

/-- The `confidence_scores` dict of an analysis result.  On the failure path
of `analyze_image` only `overall_confidence` is present. -/
structure ConfidenceScores where
  overall_confidence : ℚ
  component_detection : Option ℚ := none
  violation_detection : Option ℚ := none
deriving DecidableEq, Repr

/-- `np.mean` over a list of rationals. -/
def listMean (l : List ℚ) : ℚ := l.sum / l.length

/-- The dict returned by `analyze_image` (metadata fields that no claim
touches — model version, timestamp, image dimensions — are elided; the
`summary` key is absent on the failure path, modelled with `Option`). -/
structure AnalysisResult where
  detected_components : List Detection
  violations_found : List Violation
  overall_result : String
  confidence_scores : ConfidenceScores
  summary : Option AssessmentSummary
  recommendations : List String
  error : Option String := none
deriving DecidableEq, Repr

/-- The dict built by the `except` branch of `analyze_image`. -/
def analyzeImageFailure (e : String) : AnalysisResult :=
  { detected_components := []
    violations_found := []
    overall_result := "error"
    confidence_scores := { overall_confidence := 0 }
    summary := none
    recommendations := []
    error := some e }

/-- `ImageAnalysisService.analyze_image`.  Its fallible external calls are
passed in as arguments: `pre` is the outcome of `preprocess_image` (raises on
an undecodable image), `meta` the outcome of building `analysis_metadata`
(`Image.open` can raise), and `detections` the value returned by
`detect_components` (which catches its own errors and returns a list; the
shipped mock returns `mock_detections`).  Any raised exception lands in the
`except` branch, which returns `analyzeImageFailure`. -/
def analyze_image (pre : Except String Unit) (meta : Except String Unit)
    (detections : List Detection) : AnalysisResult :=
  match pre with
  | .error e => analyzeImageFailure e
  | .ok _ =>
    match meta with
    | .error e => analyzeImageFailure e
    | .ok _ =>
      let violations := check_code_violations detections
      let assessment := calculate_overall_assessment detections violations
      { detected_components := detections
        violations_found := violations
        overall_result := assessment.overall_result
        confidence_scores :=
          { overall_confidence := assessment.confidence
            component_detection :=
              some (if detections.isEmpty then 0 else listMean (detections.map (fun c => c.confidence)))
            violation_detection :=
              some (if violations.isEmpty then 1 else listMean (violations.map (fun v => v.confidence))) }
        summary := some assessment.summary
        recommendations := generate_recommendations violations
        error := none }

/-- The fixed detection list returned by the mock `detect_components`. -/
def mock_detections : List Detection :=
  [ { type := "outlet", confidence := 23/25, bbox := [100, 150, 200, 250]
      properties := [("grounded", .b true), ("gfci_protected", .b false)] }
  , { type := "switch", confidence := 87/100, bbox := [300, 100, 350, 180]
      properties := [("type", .s "single_pole"), ("properly_wired", .b true)] } ]

/-- `VideoAnalysisService.frame_extraction_interval`. -/
def frame_extraction_interval : Nat := 30

/-- `VideoAnalysisService.extract_key_frames`, parameterised over what the
capture device reports: `frame_count` is the number of frames `cap.read`
yields before failing, `fps` the value of `cap.get(cv2.CAP_PROP_FPS)`.
Extracted frame files are modelled by their frame indices.  Returns the
extracted frames and the computed duration
(`frame_count / fps if fps > 0 else 0`). -/
def extract_key_frames (frame_count : Nat) (fps : ℚ) : List Nat × ℚ :=
  ((List.range frame_count).filter (fun i => i % frame_extraction_interval == 0),
   if fps > 0 then (frame_count : ℚ) / fps else 0)

/-- One element of the `frame_analyses` list built by `analyze_video`. -/
structure FrameAnalysis where
  frame_number : Nat
  timestamp : ℚ
  analysis : AnalysisResult
deriving DecidableEq, Repr

/-- The `summary` dict of `analyze_video`. -/
structure VideoSummary where
  frames_analyzed : Nat
  total_components : Nat
  total_violations : Nat
deriving DecidableEq, Repr

/-- The dict returned by `analyze_video` (the `summary` key is absent on the
error path, modelled with `Option`). -/
structure VideoResult where
  frame_analyses : List FrameAnalysis
  overall_result : String
  duration : ℚ
  summary : Option VideoSummary
  error : Option String := none
deriving DecidableEq, Repr

/-- `VideoAnalysisService._calculate_video_assessment`. -/
def calculate_video_assessment (frame_analyses : List FrameAnalysis) : String :=
  if frame_analyses.isEmpty then "error"
  else
    let results := frame_analyses.map (fun f => f.analysis.overall_result)
    if results.contains "fail" then "fail"
    else if results.contains "warning" then "warning"
    else if results.all (fun r => r == "pass") then "pass"
    else "warning"

/-- `VideoAnalysisService.analyze_video`, parameterised over the capture
report (`frame_count`, `fps`) and over the per-frame image analysis
`analyzeFrame` (applied to the extracted frame's index; `analyze_image`
catches all its own exceptions, so the per-frame `except`/`continue` branch
is unreachable and every extracted frame is analysed). -/
def analyze_video (frame_count : Nat) (fps : ℚ)
    (analyzeFrame : Nat → AnalysisResult) : VideoResult :=
  let extracted := extract_key_frames frame_count fps
  let frame_paths := extracted.1
  let duration := extracted.2
  if frame_paths.isEmpty then
    { frame_analyses := []
      overall_result := "error"
      duration := 0
      summary := none
      error := some "Could not extract frames from video" }
  else
    let frame_analyses := frame_paths.enum.map (fun p =>
      { frame_number := p.1 * frame_extraction_interval
        timestamp := (p.1 * frame_extraction_interval : ℚ) / 30
        analysis := analyzeFrame p.2 : FrameAnalysis })
    let all_components := frame_analyses.flatMap (fun f => f.analysis.detected_components)
    let all_violations := frame_analyses.flatMap (fun f => f.analysis.violations_found)
    { frame_analyses := frame_analyses
      overall_result := calculate_video_assessment frame_analyses
      duration := duration
      summary := some
        { frames_analyzed := frame_analyses.length
          total_components := all_components.length
          total_violations := all_violations.length }
      error := none }

/-- ASCII lower-casing of one character, as `str.lower()` acts on the ASCII
range (every pattern, keyword and stop word in the source is ASCII). -/
def lowerChar (c : Char) : Char :=
  if c.val ≥ 65 && c.val ≤ 90 then Char.ofNat (c.toNat + 32) else c

/-- `query.lower()` as a character list. -/
def lowerList (s : List Char) : List Char := s.map lowerChar

/-- Python substring membership `needle in haystack` on character lists
(true for the empty needle, and for equal strings, exactly as in Python). -/
def containsSub (needle haystack : List Char) : Bool :=
  (List.range (haystack.length + 1)).any
    (fun i => (haystack.drop i).take needle.length == needle)

/-- Python `needle in haystack` on strings. -/
def strContains (needle haystack : String) : Bool :=
  containsSub needle.data haystack.data

/-- One entry of the NEC knowledge table (`CodeSection` in the data model). -/
structure NecSection where
  title : String
  content : String
  subsections : List (String × String) := []
  keywords : List String
deriving DecidableEq, Repr

/-- `CodeQueryService._initialize_nec_database()`: the five sections in dict
insertion order. -/
def nec_database : List (String × NecSection) :=
  [ ("210.8",
     { title := "Ground-Fault Circuit-Interrupter Protection for Personnel"
       content := "Ground-fault circuit-interrupter protection for personnel shall be provided as required in 210.8(A) through (F). The ground-fault circuit-interrupter shall be installed in a readily accessible location."
       subsections :=
         [ ("210.8(A)", "Dwelling Units. All 125-volt, single-phase, 15- and 20-ampere receptacles installed in bathrooms, garages, outdoors, crawl spaces, basements, kitchens, and other specified locations shall have ground-fault circuit-interrupter protection for personnel.")
         , ("210.8(B)", "Other Than Dwelling Units. All 125-volt, single-phase, 15-, 20-, and 30-ampere receptacles installed in bathrooms, kitchens, rooftops, outdoors, and other specified locations shall have ground-fault circuit-interrupter protection for personnel.") ]
       keywords := ["gfci", "ground fault", "protection", "bathroom", "kitchen", "garage", "outdoor", "basement"] })
  , ("250.66",
     { title := "Size of Alternating-Current Grounding Electrode Conductor"
       content := "The size of the grounding electrode conductor of a grounded or ungrounded ac system shall not be less than given in Table 250.66, except as permitted in 250.66(A) through (C)."
       keywords := ["grounding", "electrode", "conductor", "size", "table"] })
  , ("314.16",
     { title := "Number of Conductors in Outlet, Device, and Junction Boxes, and Conduit Bodies"
       content := "Boxes and conduit bodies shall be of sufficient size to provide free space for all enclosed conductors. In no case shall the volume of the box, as calculated in 314.16(A), be less than the fill calculation as calculated in 314.16(B)."
       keywords := ["box fill", "conductors", "junction box", "outlet box", "volume", "calculation"] })
  , ("240.21",
     { title := "Location in Circuit"
       content := "Overcurrent protection shall be provided in each ungrounded conductor and shall be located at the point where the conductor to be protected receives its supply except as specified in 240.21(A) through (H)."
       keywords := ["overcurrent", "protection", "breaker", "fuse", "conductor"] })
  , ("110.26",
     { title := "Spaces About Electrical Equipment"
       content := "Sufficient access and working space shall be provided and maintained about all electrical equipment to permit ready and safe operation and maintenance of such equipment."
       keywords := ["clearance", "working space", "electrical equipment", "panel", "access"] }) ]

/-- `dict.get` on the NEC table. -/
def necLookup (db : List (String × NecSection)) (sid : String) : Option NecSection :=
  (db.find? (fun e => e.1 == sid)).map (fun e => e.2)

/-- The stop-word set of `_extract_keywords`. -/
def stop_words : List String :=
  ["the", "a", "an", "and", "or", "but", "in", "on", "at", "to", "for", "of",
   "with", "by", "is", "are", "was", "were", "be", "been", "have", "has",
   "had", "do", "does", "did", "will", "would", "could", "should", "may",
   "might", "must", "can", "what", "when", "where", "why", "how"]

/-- A word character of the regex `\b\w+\b` (ASCII range; the tokenizer runs
on the lower-cased query). -/
def isWordChar (c : Char) : Bool :=
  (c.val ≥ 97 && c.val ≤ 122) || (c.val ≥ 65 && c.val ≤ 90) ||
    (c.val ≥ 48 && c.val ≤ 57) || c == '_'

/-- `re.findall(r'\b\w+\b', s)`: the maximal runs of word characters, in
order.  `acc` holds the current run reversed. -/
def wordRunsAux : List Char → List Char → List (List Char)
  | [], acc => if acc.isEmpty then [] else [acc.reverse]
  | c :: cs, acc =>
    if isWordChar c then wordRunsAux cs (c :: acc)
    else if acc.isEmpty then wordRunsAux cs []
    else acc.reverse :: wordRunsAux cs []

/-- `CodeQueryService._extract_keywords`: tokenize the lower-cased query,
drop stop words and words of length ≤ 2. -/
def extract_keywords (query : String) : List String :=
  ((wordRunsAux (lowerList query.data) []).map (fun cs => String.mk cs)).filter
    (fun w => !(stop_words.contains w) && decide (w.length > 2))

/-- The score one `(keyword, section_keyword)` pair contributes in
`_search_nec_sections`.  Source order of the branches preserved: the
substring test (`in`, which is true for equal strings) is tried first, so
the `elif keyword == section_keyword: score += 2` branch is unreachable. -/
def pairScore (keyword section_keyword : String) : Nat :=
  if strContains keyword section_keyword || strContains section_keyword keyword then 1
  else if keyword == section_keyword then 2
  else 0

/-- The raw relevance score of one section: the nested loops of
`_search_nec_sections` sum `pairScore` over all pairs. -/
def sectionScore (keywords section_keywords : List String) : Nat :=
  (keywords.flatMap (fun k => section_keywords.map (fun sk => pairScore k sk))).sum

/-- The scoring formula the specification states, written from its words for
comparison with `pairScore`: 2 for an exactly equal pair, 1 when either
string is a proper substring of the other, 0 otherwise. -/
def claimedPairScore (keyword section_keyword : String) : Nat :=
  if keyword == section_keyword then 2
  else if strContains keyword section_keyword || strContains section_keyword keyword then 1
  else 0

/-- The per-section sum of `claimedPairScore`, from the specification's words. -/
def claimedSectionScore (keywords section_keywords : List String) : Nat :=
  (keywords.flatMap (fun k => section_keywords.map (fun sk => claimedPairScore k sk))).sum

/-- Stable insert for descending order: the new element goes after every
earlier element of equal or larger score. -/
def insertDesc (x : String × ℚ) : List (String × ℚ) → List (String × ℚ)
  | [] => [x]
  | y :: ys => if y.2 < x.2 then x :: y :: ys else y :: insertDesc x ys

/-- `list.sort(key=lambda x: x[1], reverse=True)`: the stable descending
sort (insertion formulation; Python's stable sort produces the same list). -/
def sortByScoreDesc (l : List (String × ℚ)) : List (String × ℚ) :=
  l.foldl (fun acc x => insertDesc x acc) []

/-- `CodeQueryService._search_nec_sections`: score every entry, keep positive
scores normalized by `(len(keywords) + len(section_keywords))`, stable-sort
descending, take the top 3. -/
def search_nec_sections (db : List (String × NecSection)) (keywords : List String) :
    List (String × ℚ) :=
  let scored := db.filterMap (fun e =>
    let score := sectionScore keywords e.2.keywords
    if score > 0 then
      some (e.1, (score : ℚ) / ((keywords.length : ℚ) + (e.2.keywords.length : ℚ)))
    else none)
  (sortByScoreDesc scored).take 3

/-- One entry of `_initialize_query_patterns()`.  Each source pattern has the
shape `(?i).* A .*(?: B1 | B2 ...).*` (the first also with a plain literal in
place of the alternation); it is stored here as the two alternation groups
plus the canned response and primary reference. -/
structure QueryPattern where
  alts1 : List String
  alts2 : List String
  response_template : String
  primary_reference : String
deriving DecidableEq, Repr

/-- `re.match` of one pattern `(?i).*w1.*w2.*` against the query: `.` does
not cross a newline and `re.match` anchors only at the start, so the pattern
matches exactly when the first line of the lower-cased query contains `w1`
at some position `i` and `w2` at some position `j ≥ i + len(w1)`. -/
def seqMatch (w1 w2 : List Char) (line : List Char) : Bool :=
  (List.range (line.length + 1)).any (fun i =>
    ((line.drop i).take w1.length == w1) &&
    (List.range (line.length + 1)).any (fun j =>
      decide (i + w1.length ≤ j) && ((line.drop j).take w2.length == w2)))

/-- The first line of the lower-cased query (the region `.*` can span). -/
def firstLineLower (q : String) : List Char :=
  (lowerList q.data).takeWhile (fun c => c != '\n')

/-- Whether one source pattern matches the query: some word of each
alternation group occurs, in order, within the first line. -/
def patternMatches (pd : QueryPattern) (q : String) : Bool :=
  pd.alts1.any (fun a => pd.alts2.any (fun b => seqMatch a.data b.data (firstLineLower q)))

/-- The first entry of `_initialize_query_patterns()`: the GFCI fast-path
pattern `(?i).*gfci.*(?:required|need|install).*`. -/
def gfciPattern : QueryPattern :=
  { alts1 := ["gfci"]
    alts2 := ["required", "need", "install"]
    response_template := "GFCI protection is required in specific locations per NEC 210.8. For dwelling units, GFCI protection is required for 125-volt, 15- and 20-ampere receptacles in: bathrooms, garages, outdoors, crawl spaces, unfinished basements, kitchens (countertop receptacles), laundry areas, utility rooms, and within 6 feet of sinks."
    primary_reference := "210.8" }

/-- `CodeQueryService._initialize_query_patterns()`, in source order. -/
def common_patterns : List QueryPattern :=
  [ gfciPattern
  , { alts1 := ["grounding", "ground"]
      alts2 := ["size", "conductor", "wire"]
      response_template := "The size of the grounding electrode conductor is determined by NEC Table 250.66, which bases the size on the largest ungrounded service-entrance conductor or equivalent area for parallel conductors."
      primary_reference := "250.66" }
  , { alts1 := ["box fill", "junction box", "outlet box"]
      alts2 := ["calculation", "size", "conductors"]
      response_template := "Box fill calculations are covered in NEC 314.16. Each conductor, device, and fitting counts toward the box fill. The total volume must not exceed the box\x27s rated capacity. Use Table 314.16(A) for standard box volumes and Table 314.16(B) for conductor volumes."
      primary_reference := "314.16" }
  , { alts1 := ["clearance", "working space", "panel"]
      alts2 := ["distance", "feet", "inches"]
      response_template := "Working space requirements are specified in NEC 110.26. Generally, a minimum of 3 feet of clear working space is required in front of electrical equipment rated 600 volts or less. The width shall be at least 30 inches or the width of the equipment, whichever is greater."
      primary_reference := "110.26" } ]

/-- The dict `_match_query_patterns` returns on a hit. -/
structure PatternMatchResult where
  response : String
  primary_reference : String
  confidence : ℚ
deriving DecidableEq, Repr

/-- `CodeQueryService._match_query_patterns`: first matching pattern wins;
`None` when no pattern matches. -/
def match_query_patterns (q : String) : Option PatternMatchResult :=
  common_patterns.findSome? (fun pd =>
    if patternMatches pd q then
      some { response := pd.response_template
             primary_reference := pd.primary_reference
             confidence := 17/20 }
    else none)

/-- One reference citation of a query response. -/
structure QueryRef where
  sectionId : String
  title : String
  relevance : ℚ
deriving DecidableEq, Repr

/-- The response payload of the query service (`QueryResponse` in the data
model; the `error` key is present only on the exception path). -/
structure QueryResponse where
  response : String
  references : List QueryRef
  confidence : ℚ
  error : Option String := none
deriving DecidableEq, Repr

/-- The fixed no-match response of `_generate_response`. -/
def noMatchResponse : QueryResponse :=
  { response := "I couldn\x27t find specific information about your query in my current database. Please refer to the official NEC code book or consult with a licensed electrician for detailed guidance."
    references := []
    confidence := 1/10 }

/-- `CodeQueryService._generate_response`.  `self.nec_database[...]` raises
`KeyError` on a missing section id (for the primary section and for each
further relevant section alike), modelled as `none`; `process_query`'s
`except` branch catches it. -/
def generate_response (db : List (String × NecSection))
    (relevant_sections : List (String × ℚ)) : Option QueryResponse :=
  match relevant_sections with
  | [] => some noMatchResponse
  | (primary_section, primary_rel) :: rest =>
    match necLookup db primary_section with
    | none => none
    | some primary_data =>
      let primaryPart :=
        "According to NEC " ++ primary_section ++ " (" ++ primary_data.title ++ "): " ++
          primary_data.content
      let subParts := primary_data.subsections.map (fun s => "\n\n" ++ s.1 ++ ": " ++ s.2)
      let subRefs : List QueryRef := primary_data.subsections.map (fun s =>
        { sectionId := s.1
          title := primary_data.title ++ " - Subsection"
          relevance := primary_rel * (9/10) })
      match rest.mapM (fun sc => (necLookup db sc.1).map (fun sd =>
          ("\n\nAlso see NEC " ++ sc.1 ++ " (" ++ sd.title ++ ") for related requirements.",
           ({ sectionId := sc.1, title := sd.title, relevance := sc.2 } : QueryRef)))) with
      | none => none
      | some restItems =>
        some
          { response := primaryPart ++ String.join subParts ++
              String.join (restItems.map (fun r => r.1))
            references :=
              ({ sectionId := primary_section, title := primary_data.title,
                 relevance := primary_rel } : QueryRef) :: subRefs ++ restItems.map (fun r => r.2)
            confidence := min (primary_rel * (6/5)) (19/20) }

/-- The practical-tip advisory of `_enhance_response_with_context`. -/
def practicalTip : String :=
  "\n\n💡 Practical Tip: Always verify local code requirements as they may be more restrictive than the NEC. Consider consulting with a licensed electrician for complex installations."

/-- The GFCI safety advisory of `_enhance_response_with_context`. -/
def safetyNote : String :=
  "\n\n⚠️ Safety Note: GFCI devices should be tested monthly using the TEST and RESET buttons to ensure proper operation."

/-- The sizing advisory of `_enhance_response_with_context`. -/
def sizingNote : String :=
  "\n\n📏 Sizing Note: Always consider voltage drop calculations for long wire runs and ensure proper derating for multiple conductors in conduit."

/-- `any(keyword in query.lower() for keyword in kws)`. -/
def queryHasAny (kws : List String) (q : String) : Bool :=
  kws.any (fun k => containsSub k.data (lowerList q.data))

/-- `CodeQueryService._enhance_response_with_context`: appends the matched
advisories to the response text; references and confidence are untouched. -/
def enhance_response_with_context (rd : QueryResponse) (q : String) : QueryResponse :=
  let r1 := if queryHasAny ["install", "installation", "how to"] q
            then rd.response ++ practicalTip else rd.response
  let r2 := if queryHasAny ["gfci", "ground fault"] q then r1 ++ safetyNote else r1
  let r3 := if queryHasAny ["wire size", "conductor size", "ampacity"] q
            then r2 ++ sizingNote else r2
  { rd with response := r3 }

/-- The fixed response for a query with no usable keywords. -/
def needMoreInfoResponse : QueryResponse :=
  { response := "I need more specific information to help you. Please ask about specific electrical components, installations, or code requirements."
    references := []
    confidence := 1/10 }

/-- The `except` branch of `process_query` (`e` names the caught exception). -/
def queryErrorResponse (e : String) : QueryResponse :=
  { response := "I encountered an error processing your query: " ++ e ++
      ". Please try rephrasing your question or refer to the official NEC code book."
    references := []
    confidence := 0
    error := some e }

/-- `CodeQueryService.process_query` over an arbitrary knowledge table `db`
(the shipped instance uses `nec_database`). -/
def process_query (db : List (String × NecSection)) (q : String) : QueryResponse :=
  match match_query_patterns q with
  | some pm =>
    let title :=
      match necLookup db pm.primary_reference with
      | some sd => sd.title
      | none => "NEC Section"
    enhance_response_with_context
      { response := pm.response
        references := [{ sectionId := pm.primary_reference, title := title,
                         relevance := pm.confidence }]
        confidence := pm.confidence } q
  | none =>
    let keywords := extract_keywords q
    if keywords.isEmpty then needMoreInfoResponse
    else
      match generate_response db (search_nec_sections db keywords) with
      | some rd => enhance_response_with_context rd q
      | none => queryErrorResponse "KeyError"

/-- The severity partition size used by the assessment ladder:
`len([v for v in violations if v['severity'] == sev])`. -/
def countSeverity (violations : List Violation) (sev : String) : Nat :=
  (violations.filter (fun v => v.severity == sev)).length

/-- A minimal analysis result carrying a given `overall_result`, for stating
concrete temporal-fold instances. -/
def mkFrameResult (r : String) : AnalysisResult :=
  { detected_components := []
    violations_found := []
    overall_result := r
    confidence_scores := { overall_confidence := 0 }
    summary := none
    recommendations := [] }

/-- A frame assessment wrapping `mkFrameResult`. -/
def mkFrame (r : String) : FrameAnalysis :=
  { frame_number := 0, timestamp := 0, analysis := mkFrameResult r }

/-- A frame analyzer that marks every frame `pass`. -/
def constPassAnalysis : Nat → AnalysisResult := fun _ => mkFrameResult "pass"

/-- A one-entry knowledge table for concrete response-composer runs. -/
def sampleSection : NecSection :=
  { title := "T", content := "C", subsections := [("q1a", "SA")], keywords := ["k"] }

/-- The table holding `sampleSection` under id `q1`. -/
def sampleDb : List (String × NecSection) := [("q1", sampleSection)]

/-- The response the composer produces for `sampleDb` with one ranked match
of relevance 1/2. -/
def sampleResp : QueryResponse :=
  (generate_response sampleDb [("q1", 1/2)]).getD noMatchResponse

/-- An outlet detection with no `gfci_protected` property. -/
def demoOutlet : Detection :=
  { type := "outlet", confidence := 0, bbox := [], properties := [] }

/-- A junction-box detection. -/
def demoJunction : Detection :=
  { type := "junction_box", confidence := 0, bbox := [], properties := [] }

/-- A switch detection (a component type with no violation rule). -/
def demoSwitch : Detection :=
  { type := "switch", confidence := 0, bbox := [], properties := [] }

/-! ## Theorems -/

/-- Every string is a Python substring of itself (`s in s` is `True`). -/
theorem containsSub_self (n : List Char) : containsSub n n = true := by
  unfold containsSub
  apply List.any_eq_true.mpr
  refine ⟨0, ?_, ?_⟩
  · simp [List.mem_range]
  · simp

/-- The substring branch of `pairScore` fires on every exactly equal pair
(Python `in` is true for equal strings), so the `elif ... == ...: score += 2`
branch of the source is unreachable: an equal pair always scores 1. -/
theorem pairScore_self (k : String) : pairScore k k = 1 ∧ claimedPairScore k k = 2 := by
  constructor
  · simp [pairScore, strContains, containsSub_self]
  · simp [claimedPairScore]

/-- C1: the spec claims an exactly equal (query token, entry keyword) pair
contributes 2 to the retrieval score.  In the code the substring branch is
tested first and Python's `in` is true for equal strings, so the
`elif keyword == section_keyword: score += 2` branch is unreachable: every
equal pair scores 1 (see `pairScore_self`).  At the failing input — query
token list `["gfci"]` against the `"210.8"` entry's keyword list — the
code's raw score is 1 (normalized 1/9) where the claim's formula gives 2
(normalized 2/9). -/
theorem sectionScore_equal_pair_scores_one :
    pairScore "gfci" "gfci" = 1 ∧
    claimedPairScore "gfci" "gfci" = 2 ∧
    (necLookup nec_database "210.8").map NecSection.keywords =
      some ["gfci", "ground fault", "protection", "bathroom", "kitchen",
            "garage", "outdoor", "basement"] ∧
    sectionScore ["gfci"]
      ["gfci", "ground fault", "protection", "bathroom", "kitchen",
       "garage", "outdoor", "basement"] = 1 ∧
    claimedSectionScore ["gfci"]
      ["gfci", "ground fault", "protection", "bathroom", "kitchen",
       "garage", "outdoor", "basement"] = 2 := by
  refine ⟨by decide, by decide, by decide, by decide, by decide⟩

/-- C2: the overall assessment verdict and confidence are a pure function of
the high/medium severity counts, following the ladder: any high-severity
violation gives `fail` at confidence 0.85; else more than 2 medium-severity
violations give `warning` at 0.70; else `pass` at 0.90. -/
theorem calculate_overall_assessment_ladder
    (components components2 : List Detection) (violations violations2 : List Violation)
    (hh : countSeverity violations "high" = countSeverity violations2 "high")
    (hm : countSeverity violations "medium" = countSeverity violations2 "medium") :
    ((calculate_overall_assessment components violations).overall_result =
        (calculate_overall_assessment components2 violations2).overall_result ∧
      (calculate_overall_assessment components violations).confidence =
        (calculate_overall_assessment components2 violations2).confidence) ∧
    (0 < countSeverity violations "high" →
      (calculate_overall_assessment components violations).overall_result = "fail" ∧
      (calculate_overall_assessment components violations).confidence = 17/20) ∧
    (countSeverity violations "high" = 0 → 2 < countSeverity violations "medium" →
      (calculate_overall_assessment components violations).overall_result = "warning" ∧
      (calculate_overall_assessment components violations).confidence = 7/10) ∧
    (countSeverity violations "high" = 0 → countSeverity violations "medium" ≤ 2 →
      (calculate_overall_assessment components violations).overall_result = "pass" ∧
      (calculate_overall_assessment components violations).confidence = 9/10) := by
  unfold countSeverity at hh hm
  simp only [calculate_overall_assessment, countSeverity]
  refine ⟨?_, ?_, ?_, ?_⟩
  · rw [hh, hm]
    by_cases h1 : 0 < (violations2.filter (fun v => v.severity == "high")).length
    · simp [h1]
    · by_cases h2 : 2 < (violations2.filter (fun v => v.severity == "medium")).length <;>
        simp [h1, h2]
  · intro h1
    simp [h1]
  · intro h1 h2
    simp [h1, h2]
  · intro h1 h2
    simp [h1, Nat.not_lt.mpr h2]

/-- Witness for C2: a single high-severity violation makes the assessment
`fail` at confidence 0.85. -/
theorem calculate_overall_assessment_ladder_witness :
    0 < countSeverity [missingGfciViolation none] "high" ∧
    (calculate_overall_assessment [] [missingGfciViolation none]).overall_result = "fail" ∧
    (calculate_overall_assessment [] [missingGfciViolation none]).confidence = 17/20 :=
  ⟨by decide,
   (calculate_overall_assessment_ladder [] [] [missingGfciViolation none]
     [missingGfciViolation none] rfl rfl).2.1 (by decide)⟩

/-- C3: the video-level verdict of a non-empty frame sequence is `fail` if
any frame failed, else `warning` if any frame warned, else `pass` if every
frame passed, else `warning`; in particular [pass, pass, fail] folds to
`fail`, [pass, warning] to `warning`, [pass, pass, pass] to `pass`, and
[unknown, pass] to `warning`. -/
theorem calculate_video_assessment_fold (fas : List FrameAnalysis) (h : fas ≠ []) :
    (calculate_video_assessment fas =
      (if "fail" ∈ fas.map (fun f => f.analysis.overall_result) then "fail"
       else if "warning" ∈ fas.map (fun f => f.analysis.overall_result) then "warning"
       else if (fas.map (fun f => f.analysis.overall_result)).all (fun r => r == "pass")
         then "pass" else "warning")) ∧
    calculate_video_assessment [mkFrame "pass", mkFrame "pass", mkFrame "fail"] = "fail" ∧
    calculate_video_assessment [mkFrame "pass", mkFrame "warning"] = "warning" ∧
    calculate_video_assessment [mkFrame "pass", mkFrame "pass", mkFrame "pass"] = "pass" ∧
    calculate_video_assessment [mkFrame "unknown", mkFrame "pass"] = "warning" := by
  refine ⟨?_, by decide, by decide, by decide, by decide⟩
  unfold calculate_video_assessment
  rw [if_neg (by simpa [List.isEmpty_iff] using h)]
  have c1 : ((fas.map (fun f => f.analysis.overall_result)).contains "fail" = true) ↔
      "fail" ∈ fas.map (fun f => f.analysis.overall_result) := by simp [List.elem_iff]
  have c2 : ((fas.map (fun f => f.analysis.overall_result)).contains "warning" = true) ↔
      "warning" ∈ fas.map (fun f => f.analysis.overall_result) := by simp [List.elem_iff]
  by_cases h1 : "fail" ∈ fas.map (fun f => f.analysis.overall_result)
  · rw [if_pos (c1.mpr h1), if_pos h1]
  · rw [if_neg (fun hh => h1 (c1.mp hh)), if_neg h1]
    by_cases h2 : "warning" ∈ fas.map (fun f => f.analysis.overall_result)
    · rw [if_pos (c2.mpr h2), if_pos h2]
    · rw [if_neg (fun hh => h2 (c2.mp hh)), if_neg h2]

/-- Witness for C3 at the non-empty list [pass, pass, fail]. -/
theorem calculate_video_assessment_fold_witness :
    calculate_video_assessment [mkFrame "pass", mkFrame "pass", mkFrame "fail"] = "fail" :=
  (calculate_video_assessment_fold [mkFrame "pass", mkFrame "pass", mkFrame "fail"]
    (by decide)).2.1

/-- The `missing_gfci` count contributed by one component. -/
theorem countP_violationsFor_gfci (c : Detection) :
    (violationsFor c).countP (fun v => v.type == "missing_gfci") =
      (if c.type == "outlet" && !(truthyGet c.properties "gfci_protected") then 1 else 0) := by
  unfold violationsFor
  by_cases h1 : c.type == "outlet"
  · by_cases h2 : truthyGet c.properties "gfci_protected" <;>
      simp [h1, h2, missingGfciViolation]
  · by_cases h3 : c.type == "junction_box" <;>
      simp [h1, h3, overcrowdingViolation]

/-- The `potential_overcrowding` count contributed by one component. -/
theorem countP_violationsFor_overcrowding (c : Detection) :
    (violationsFor c).countP (fun v => v.type == "potential_overcrowding") =
      (if c.type == "junction_box" then 1 else 0) := by
  unfold violationsFor
  by_cases h1 : c.type == "outlet"
  · have h4 : (c.type == "junction_box") = false := by
      have := eq_of_beq h1
      simp [this]
    by_cases h2 : truthyGet c.properties "gfci_protected" <;>
      simp [h1, h2, h4, missingGfciViolation]
  · by_cases h3 : c.type == "junction_box" <;>
      simp [h1, h3, overcrowdingViolation]

/-- C4: the rule engine emits exactly one high-severity `missing_gfci`
violation per outlet whose `gfci_protected` property is false or absent, and
exactly one medium-severity `potential_overcrowding` violation per
`junction_box`; every other component type contributes nothing, and no other
violation kind is ever produced. -/
theorem check_code_violations_counts (components : List Detection) :
    ((check_code_violations components).countP (fun v => v.type == "missing_gfci") =
      components.countP
        (fun c => c.type == "outlet" && !(truthyGet c.properties "gfci_protected"))) ∧
    ((check_code_violations components).countP (fun v => v.type == "potential_overcrowding") =
      components.countP (fun c => c.type == "junction_box")) ∧
    (∀ c ∈ components, c.type ≠ "outlet" → c.type ≠ "junction_box" → violationsFor c = []) ∧
    (∀ v ∈ check_code_violations components,
      (v.type = "missing_gfci" ∧ v.severity = "high") ∨
      (v.type = "potential_overcrowding" ∧ v.severity = "medium")) := by
  refine ⟨?_, ?_, ?_, ?_⟩
  · induction components with
    | nil => rfl
    | cons c cs ih =>
      simp only [check_code_violations, List.flatMap_cons, List.countP_append,
        List.countP_cons] at ih ⊢
      rw [ih, countP_violationsFor_gfci]
      by_cases hc : c.type == "outlet" && !(truthyGet c.properties "gfci_protected") <;>
        simp [hc, Nat.add_comm]
  · induction components with
    | nil => rfl
    | cons c cs ih =>
      simp only [check_code_violations, List.flatMap_cons, List.countP_append,
        List.countP_cons] at ih ⊢
      rw [ih, countP_violationsFor_overcrowding]
      by_cases hc : c.type == "junction_box" <;> simp [hc, Nat.add_comm]
  · intro c _ h1 h2
    unfold violationsFor
    simp [h1, h2]
  · intro v hv
    rw [check_code_violations, List.mem_flatMap] at hv
    obtain ⟨c, _, hvc⟩ := hv
    unfold violationsFor at hvc
    by_cases h1 : c.type == "outlet" <;> by_cases h2 : truthyGet c.properties "gfci_protected" <;>
      by_cases h3 : c.type == "junction_box" <;>
        simp [h1, h2, h3, missingGfciViolation, overcrowdingViolation] at hvc <;>
          subst hvc <;> simp [missingGfciViolation, overcrowdingViolation]

/-- Witness for C4: an unprotected outlet, a junction box and a switch yield
one `missing_gfci` and one `potential_overcrowding` violation, the switch
none. -/
theorem check_code_violations_counts_witness :
    violationsFor demoSwitch = [] ∧
    (check_code_violations [demoOutlet, demoJunction, demoSwitch]).countP
      (fun v => v.type == "missing_gfci") =
      [demoOutlet, demoJunction, demoSwitch].countP
        (fun c => c.type == "outlet" && !(truthyGet c.properties "gfci_protected")) :=
  ⟨(check_code_violations_counts [demoOutlet, demoJunction, demoSwitch]).2.2.1 demoSwitch
     (List.Mem.tail _ (List.Mem.tail _ (List.Mem.head _))) (by decide) (by decide),
   (check_code_violations_counts [demoOutlet, demoJunction, demoSwitch]).1⟩

/-- C5: any query matched by the GFCI fast-path pattern short-circuits
keyword search: `process_query` returns confidence exactly 0.85 and a single
primary reference citing section 210.8 at that relevance, for every
knowledge table `db`. -/
theorem process_query_gfci_fast_path (db : List (String × NecSection)) (q : String)
    (h : patternMatches gfciPattern q = true) :
    (process_query db q).confidence = 17/20 ∧
    ∃ t, (process_query db q).references =
      [{ sectionId := "210.8", title := t, relevance := 17/20 }] := by
  have hm : match_query_patterns q =
      some { response := gfciPattern.response_template
             primary_reference := gfciPattern.primary_reference
             confidence := 17/20 } := by
    unfold match_query_patterns common_patterns
    rw [List.findSome?_cons]
    simp [h]
  unfold process_query
  rw [hm]
  exact ⟨rfl, ⟨(match necLookup db "210.8" with | some sd => sd.title | none => "NEC Section"),
    rfl⟩⟩

/-- Witness for C5: a concrete GFCI query against the shipped table. -/
theorem process_query_gfci_fast_path_witness :
    (process_query nec_database "Is gfci required in kitchens?").confidence = 17/20 :=
  (process_query_gfci_fast_path nec_database "Is gfci required in kitchens?" (by decide)).1

/-- C6: when frame extraction yields no frames, the video assessment is the
error record: result `error`, duration 0, empty frame-assessment list. -/
theorem analyze_video_no_frames_error (frame_count : Nat) (fps : ℚ)
    (analyzeFrame : Nat → AnalysisResult)
    (h : (extract_key_frames frame_count fps).1 = []) :
    analyze_video frame_count fps analyzeFrame =
      { frame_analyses := []
        overall_result := "error"
        duration := 0
        summary := none
        error := some "Could not extract frames from video" } := by
  unfold analyze_video
  simp only [h, List.isEmpty_nil, if_true]

/-- Witness for C6: a zero-frame capture. -/
theorem analyze_video_no_frames_error_witness :
    analyze_video 0 0 constPassAnalysis =
      { frame_analyses := []
        overall_result := "error"
        duration := 0
        summary := none
        error := some "Could not extract frames from video" } :=
  analyze_video_no_frames_error 0 0 constPassAnalysis (by decide)

/-- The recommendation list is never empty (shared between the
recommendation and image-analysis results). -/
theorem generate_recommendations_ne_nil (violations : List Violation) :
    generate_recommendations violations ≠ [] := by
  unfold generate_recommendations
  cases violations with
  | nil => simp
  | cons v vs => simp

/-- C7: recommendations are one sentence per violation — the fixed sentence
for the three mapped kinds, the generic address/refer sentence otherwise —
and an empty violation list yields exactly the single reassuring sentence;
the list is never empty. -/
theorem generate_recommendations_spec (violations : List Violation) :
    generate_recommendations violations ≠ [] ∧
    (violations = [] → generate_recommendations violations = [reassuranceRecommendation]) ∧
    (violations ≠ [] →
      generate_recommendations violations = violations.map recommendationFor) ∧
    (∀ v ∈ violations, v.type = "missing_gfci" →
      gfciRecommendation ∈ generate_recommendations violations) ∧
    (∀ v ∈ violations, v.type = "potential_overcrowding" →
      overcrowdingRecommendation ∈ generate_recommendations violations) ∧
    (∀ v ∈ violations, v.type = "improper_grounding" →
      groundingRecommendation ∈ generate_recommendations violations) ∧
    (∀ v : Violation,
      v.type ≠ "missing_gfci" → v.type ≠ "potential_overcrowding" →
      v.type ≠ "improper_grounding" →
      recommendationFor v =
        "Address " ++ v.type ++ " - refer to " ++ v.code_reference.getD "NEC") := by
  refine ⟨generate_recommendations_ne_nil violations, ?_, ?_, ?_, ?_, ?_, ?_⟩
  · intro h
    subst h
    rfl
  · intro h
    unfold generate_recommendations
    simp [List.isEmpty_iff, h]
  · intro v hv ht
    have : recommendationFor v ∈ generate_recommendations violations := by
      unfold generate_recommendations
      exact List.mem_append_left _ (List.mem_map_of_mem _ hv)
    rwa [show recommendationFor v = gfciRecommendation by unfold recommendationFor; simp [ht]]
      at this
  · intro v hv ht
    have : recommendationFor v ∈ generate_recommendations violations := by
      unfold generate_recommendations
      exact List.mem_append_left _ (List.mem_map_of_mem _ hv)
    rwa [show recommendationFor v = overcrowdingRecommendation by
      unfold recommendationFor; simp [ht]] at this
  · intro v hv ht
    have : recommendationFor v ∈ generate_recommendations violations := by
      unfold generate_recommendations
      exact List.mem_append_left _ (List.mem_map_of_mem _ hv)
    rwa [show recommendationFor v = groundingRecommendation by
      unfold recommendationFor; simp [ht]] at this
  · intro v h1 h2 h3
    unfold recommendationFor
    simp [h1, h2, h3]

/-- Witness for C7: the empty violation list yields exactly the reassuring
sentence. -/
theorem generate_recommendations_spec_witness :
    generate_recommendations [] = [reassuranceRecommendation] :=
  (generate_recommendations_spec []).2.1 rfl

/-- C8: for a non-empty ranked match list the composed response's confidence
is `min(primary relevance × 1.2, 0.95)` — hence never exactly 1 — and every
subsection of the primary section is cited at 0.9 × the primary relevance. -/
theorem generate_response_confidence_cap (db : List (String × NecSection))
    (primary_section : String) (primary_rel : ℚ) (rest : List (String × ℚ))
    (resp : QueryResponse) (primary_data : NecSection)
    (h : generate_response db ((primary_section, primary_rel) :: rest) = some resp)
    (hd : necLookup db primary_section = some primary_data) :
    resp.confidence = min (primary_rel * (6/5)) (19/20) ∧
    resp.confidence ≠ 1 ∧
    ∀ s ∈ primary_data.subsections,
      ({ sectionId := s.1, title := primary_data.title ++ " - Subsection",
         relevance := primary_rel * (9/10) } : QueryRef) ∈ resp.references := by
  simp only [generate_response] at h
  rw [hd] at h
  cases hmap : rest.mapM (fun sc => (necLookup db sc.1).map (fun sd =>
      ("\n\nAlso see NEC " ++ sc.1 ++ " (" ++ sd.title ++ ") for related requirements.",
       ({ sectionId := sc.1, title := sd.title, relevance := sc.2 } : QueryRef)))) with
  | none =>
    rw [hmap] at h
    cases h
  | some restItems =>
    rw [hmap] at h
    injection h with h
    subst h
    refine ⟨rfl, ?_, ?_⟩
    · show min (primary_rel * (6/5)) ((19 : ℚ)/20) ≠ 1
      have h95 : (19 : ℚ)/20 < 1 := by norm_num
      exact ne_of_lt (lt_of_le_of_lt (min_le_right _ _) h95)
    · intro s hs
      exact List.mem_cons_of_mem _ (List.mem_append_left _ (List.mem_map_of_mem _ hs))

/-- Witness for C8: the sample composer run cites the subsection at 0.9 × the
primary relevance and caps confidence below 1. -/
theorem generate_response_confidence_cap_witness :
    sampleResp.confidence = min ((1/2 : ℚ) * (6/5)) (19/20) ∧
    sampleResp.confidence ≠ 1 ∧
    ({ sectionId := "q1a", title := "T - Subsection",
       relevance := (1/2 : ℚ) * (9/10) } : QueryRef) ∈ sampleResp.references := by
  have h := generate_response_confidence_cap sampleDb "q1" (1/2) [] sampleResp sampleSection
    rfl rfl
  exact ⟨h.1, h.2.1, h.2.2 ("q1a", "SA") (List.Mem.head _)⟩

/-- C9: the reported duration is `total_frames / fps` when the reported fps
is positive and 0 when it is 0 (the computation is total); the frame
assessments — frame numbers and timestamps included — do not depend on the
reported fps at all, and every timestamp equals `frame_number / 30`, the
fixed assumed frame rate. -/
theorem extract_frames_duration_timestamps (frame_count : Nat) (fps fps2 : ℚ)
    (analyzeFrame : Nat → AnalysisResult) :
    (0 < fps → (extract_key_frames frame_count fps).2 = (frame_count : ℚ) / fps) ∧
    (fps = 0 → (extract_key_frames frame_count fps).2 = 0) ∧
    ((analyze_video frame_count fps analyzeFrame).frame_analyses =
      (analyze_video frame_count fps2 analyzeFrame).frame_analyses) ∧
    (∀ fa ∈ (analyze_video frame_count fps analyzeFrame).frame_analyses,
      fa.timestamp = (fa.frame_number : ℚ) / 30) := by
  refine ⟨?_, ?_, ?_, ?_⟩
  · intro hpos
    unfold extract_key_frames
    simp only [if_pos hpos]
  · intro h0
    subst h0
    unfold extract_key_frames
    simp only [gt_iff_lt, lt_irrefl, if_false]
  · simp only [analyze_video, extract_key_frames]
    by_cases hE :
        ((List.range frame_count).filter (fun i => i % frame_extraction_interval == 0)).isEmpty
    · simp [hE]
    · simp [hE]
  · intro fa hfa
    simp only [analyze_video, extract_key_frames] at hfa
    by_cases hE :
        ((List.range frame_count).filter (fun i => i % frame_extraction_interval == 0)).isEmpty
    · simp [hE] at hfa
    · simp only [hE, Bool.false_eq_true, if_false] at hfa
      obtain ⟨p, _, rfl⟩ := List.mem_map.mp hfa
      show (p.1 * frame_extraction_interval : ℚ) / 30 =
        ((p.1 * frame_extraction_interval : Nat) : ℚ) / 30
      push_cast
      ring
  
/-- Witness for C9: 61 frames at a reported 2 fps last 30.5 seconds. -/
theorem extract_frames_duration_timestamps_witness :
    (extract_key_frames 61 2).2 = (61 : ℚ) / 2 :=
  (extract_frames_duration_timestamps 61 2 7 constPassAnalysis).1 (by norm_num)

/-- C10: `analyze_image` is total over its fallible inputs: any failure of
image preprocessing or metadata collection produces the fixed failure record
(result `error`, empty component and violation lists, overall confidence 0,
and — unlike every success record — an empty recommendation list); on the
success path the recommendation list is never empty. -/
theorem analyze_image_error_path (pre meta : Except String Unit) (detections : List Detection) :
    (∀ e : String, (pre = .error e ∨ (pre = .ok () ∧ meta = .error e)) →
      analyze_image pre meta detections = analyzeImageFailure e ∧
      (analyze_image pre meta detections).overall_result = "error" ∧
      (analyze_image pre meta detections).detected_components = [] ∧
      (analyze_image pre meta detections).violations_found = [] ∧
      (analyze_image pre meta detections).confidence_scores.overall_confidence = 0 ∧
      (analyze_image pre meta detections).recommendations = []) ∧
    (pre = .ok () → meta = .ok () →
      (analyze_image pre meta detections).error = none ∧
      (analyze_image pre meta detections).recommendations ≠ []) := by
  constructor
  · rintro e (hpre | ⟨hpre, hmeta⟩)
    · subst hpre
      exact ⟨rfl, rfl, rfl, rfl, rfl, rfl⟩
    · subst hpre
      subst hmeta
      exact ⟨rfl, rfl, rfl, rfl, rfl, rfl⟩
  · rintro hpre hmeta
    subst hpre
    subst hmeta
    refine ⟨rfl, ?_⟩
    show generate_recommendations (check_code_violations detections) ≠ []
    exact generate_recommendations_ne_nil _

/-- Witness for C10: an undecodable image degrades to the failure record. -/
theorem analyze_image_error_path_witness :
    analyze_image (Except.error "undecodable image") (Except.ok ()) mock_detections =
      analyzeImageFailure "undecodable image" :=
  ((analyze_image_error_path (Except.error "undecodable image") (Except.ok ())
    mock_detections).1 "undecodable image" (Or.inl rfl)).1
